import Mathlib

/-!
Verification of the CampusConnect pipeline core.

Shallow embedding of `src/tools/scoring_tools.py`, `src/utils/geo.py`,
`src/graphs/matching.py`, `src/graphs/safety.py`,
`src/graphs/events_communities.py` and `src/graphs/chat_assistant.py`.

Python dictionaries with optional keys are modelled as structures with
`Option` fields (`none` = key absent); `dict.get(k, d)` becomes `getD d`.
Python floats appearing as data (coordinates, confidences, counts) are
modelled as rationals; the transcendental haversine computation is
modelled over the reals. LLM and Firestore calls are oracles passed as
parameters; an oracle value of `none` (or `Except.error`) models the
call raising an exception.
-/

namespace CampusConnect

/-- Profile record (a Firestore `profiles` document). Fields are optional
because the source reads them with `dict.get`. Coordinates are rationals
(every Python float is a rational). -/
structure Profile where
  uid : Option String := none
  name : Option String := none
  campusId : Option String := none
  interests : Option (List String) := none
  major : Option String := none
  year : Option Int := none
  bio : Option String := none
  locationLat : Option ℚ := none
  locationLng : Option ℚ := none
  deriving Repr, DecidableEq

/-- Python truthiness of an optional string: present and non-empty. -/
def truthyStr : Option String → Bool
  | some s => !s.isEmpty
  | none => false

/-- Cardinality of `set(a) ∩ set(b)` for string lists, as computed by
`len(set(a).intersection(set(b)))` in the source. -/
def sharedInterestCount (a b : List String) : Nat :=
  (a.dedup.filter (fun i => b.contains i)).length

/-- Embedding of `calculate_base_compatibility_score` from
`src/tools/scoring_tools.py` (lines 9-37): base 40, shared-interest bonus
`min(common * 3, 30)`, +15 on equal `major` fields (`None == None` counts as
equal, as in Python), +10 when both years are ints within 1, +5 when both
bios are truthy, capped with `min(score, 100)`. -/
def calculate_base_compatibility_score (user candidate : Profile) : Int :=
  let score : Int := 40
  let common : Int := sharedInterestCount (user.interests.getD []) (candidate.interests.getD [])
  let score := score + min (common * 3) 30
  let score := score + (if user.major = candidate.major then 15 else 0)
  let score := score +
    (match user.year, candidate.year with
     | some uy, some cy => if (uy - cy).natAbs ≤ 1 then 10 else 0
     | _, _ => 0)
  let score := score + (if truthyStr user.bio && truthyStr candidate.bio then 5 else 0)
  min score 100

/-- Reference definition written from the spec's words (claim C3): start at
40; add `min(3 * shared, 30)`; add 15 if the `major` fields are identical;
add 10 if the `year` fields differ by at most 1; add 5 if both records have
non-empty `bio` fields; clamp the result at 100. -/
def compatibility_score_spec (user candidate : Profile) : Int :=
  min
    (40
      + min (3 * (sharedInterestCount (user.interests.getD []) (candidate.interests.getD []) : Int)) 30
      + (if user.major = candidate.major then 15 else 0)
      + (match user.year, candidate.year with
         | some uy, some cy => if (uy - cy).natAbs ≤ 1 then 10 else 0
         | _, _ => 0)
      + (if truthyStr user.bio && truthyStr candidate.bio then 5 else 0))
    100

/-- Degrees to radians, `math.radians` in `src/utils/geo.py`. -/
noncomputable def radians (x : ℝ) : ℝ := x * Real.pi / 180

open Classical

/-- Two-argument arctangent, `math.atan2` from the Python standard library
(used by `haversine_meters`). Mirrors the IEEE definition on the reals,
with `atan2 0 0 = 0` as in Python. -/
noncomputable def atan2 (y x : ℝ) : ℝ :=
  if 0 < x then Real.arctan (y / x)
  else if x < 0 ∧ 0 ≤ y then Real.arctan (y / x) + Real.pi
  else if x < 0 ∧ y < 0 then Real.arctan (y / x) - Real.pi
  else if x = 0 ∧ 0 < y then Real.pi / 2
  else if x = 0 ∧ y < 0 then -(Real.pi / 2)
  else 0

/-- Fixed Earth radius from `src/utils/geo.py`. -/
def EARTH_RADIUS_METERS : ℝ := 6371000

/-- Embedding of `haversine_meters` from `src/utils/geo.py` (lines 10-40),
over the reals. -/
noncomputable def haversine_meters (lat1 lng1 lat2 lng2 : ℝ) : ℝ :=
  let lat1_rad := radians lat1
  let lng1_rad := radians lng1
  let lat2_rad := radians lat2
  let lng2_rad := radians lng2
  let delta_lat := lat2_rad - lat1_rad
  let delta_lng := lng2_rad - lng1_rad
  let a := Real.sin (delta_lat / 2) ^ 2
    + Real.cos lat1_rad * Real.cos lat2_rad * Real.sin (delta_lng / 2) ^ 2
  let c := 2 * atan2 (Real.sqrt a) (Real.sqrt (1 - a))
  EARTH_RADIUS_METERS * c

/-- Embedding of `calculate_distance_score` from `src/tools/scoring_tools.py`
(lines 40-61): multiplier 1.0 within `max_distance_m`, then linear decay
floored at 0. -/
noncomputable def calculate_distance_score
    (user_lat user_lng candidate_lat candidate_lng : ℝ)
    (max_distance_m : ℝ) : ℝ :=
  let distance := haversine_meters user_lat user_lng candidate_lat candidate_lng
  if distance ≤ max_distance_m then 1
  else
    let decay := 1 - (distance - max_distance_m) / max_distance_m
    max decay 0

/-- Distance-rejection test inside the loop of `filter_candidates_basic`
(lines 81-89 of `src/tools/scoring_tools.py`): a candidate is rejected for
distance only when the user and the candidate both carry coordinates and
the haversine distance exceeds the radius; a missing coordinate on either
side skips the check. -/
def rejectedByDistance (user candidate : Profile) (radius_meters : Int) : Prop :=
  match user.locationLat, user.locationLng,
        candidate.locationLat, candidate.locationLng with
  | some ulat, some ulng, some clat, some clng =>
      haversine_meters (ulat : ℝ) (ulng : ℝ) (clat : ℝ) (clng : ℝ) > (radius_meters : ℝ)
  | _, _, _, _ => False

/-- Embedding of `filter_candidates_basic` from `src/tools/scoring_tools.py`
(lines 64-101). The source loop appends a candidate unless one of its three
`continue` guards fires, which is a `List.filter` with the guards negated in
order. -/
noncomputable def filter_candidates_basic
    (candidates : List Profile) (user : Profile)
    (radius_meters : Int) (min_score_threshold : Int) : List Profile :=
  candidates.filter fun candidate =>
    if candidate.uid = user.uid then false
    else if rejectedByDistance user candidate radius_meters then false
    else if calculate_base_compatibility_score user candidate < min_score_threshold then false
    else true

/-- Python truthiness of the `error` key: present and non-empty, the test
performed by every `if state.get("error"):` guard. -/
def errTruthy : Option String → Bool
  | some s => !s.isEmpty
  | none => false

/-- Matching preferences dict (`state["preferences"]`). -/
structure Prefs where
  radiusMeters : Option Int := none
  minScore : Option Int := none
  deriving Repr, DecidableEq

/-- A scored match: the candidate dict spread together with the three keys
added by `node_score_matches`. The score keys are optional because later
stages read them with `dict.get`. -/
structure Scored where
  profile : Profile := {}
  deterministic_score : Option Int := none
  base_score : Option Int := none
  distance_multiplier : Option ℝ := none

/-- One value of the `llm_reasoning` map built by `node_generate_reasoning`
(all three keys are always written by the source). -/
structure Reasoning where
  why_compatible : String
  conversation_starter : String
  adjusted_score : Int

/-- Parsed output of the matching-reasoning chain; optional fields mirror
`result.get(...)` reads. -/
structure LlmReasoningResult where
  why_compatible : Option String := none
  conversation_starter : Option String := none
  compatibility_score : Option Int := none

/-- Result of `get_user_connections`. -/
structure Connections where
  accepted : List String := []
  pending : List String := []
  blocked : List String := []

/-- One record returned by `get_recent_matches`. -/
structure RecentMatch where
  matchedUserId : Option String := none

/-- The `response_metadata` block built by `node_finalize_response`. -/
structure RespMeta where
  success : Bool
  error : Option String
  reasoning_applied : Bool
  total_candidates : Nat
  filtered_count : Nat

/-- One element of `final_matches`. -/
structure FinalMatch where
  id : String
  name : Option String
  major : Option String
  year : Option Int
  bio : Option String
  interests : List String
  score : Int
  why_compatible : String
  conversation_starter : String

/-- `MatchingState` from `src/state.py`: a `total=False` TypedDict, so every
progressively-populated field is optional. -/
structure MatchingState where
  user_id : String := ""
  tenant_id : String := ""
  campus_id : Option String := none
  user_profile : Option Profile := none
  preferences : Option Prefs := none
  candidates : Option (List Profile) := none
  filtered_candidates : Option (List Profile) := none
  scored_matches : Option (List Scored) := none
  top_matches : Option (List Scored) := none
  llm_reasoning : Option (List (String × Reasoning)) := none
  final_matches : Option (List FinalMatch) := none
  response_metadata : Option RespMeta := none
  error : Option String := none

namespace MatchingGraph

/-- Embedding of `MatchingGraph.node_fetch_user_profile`
(`src/graphs/matching.py` lines 60-81). The oracle models
`get_user_profile`: `Except.error` is a raised `FirestoreUnavailableError`,
`Except.ok none` a falsy (missing) profile. -/
def node_fetch_user_profile (profileResult : Except Unit (Option Profile))
    (state : MatchingState) : MatchingState :=
  match profileResult with
  | .error _ =>
      { state with error := some "Firestore unavailable. Returning empty matches." }
  | .ok none =>
      { state with error := some ("User profile not found: " ++ state.user_id) }
  | .ok (some profile) =>
      { state with user_profile := some profile
                 , campus_id := some (profile.campusId.getD "") }

/-- Embedding of `MatchingGraph.node_query_candidates` (lines 83-102); the
oracle models `get_all_profiles_in_campus`. -/
def node_query_candidates (queryResult : Except Unit (List Profile))
    (state : MatchingState) : MatchingState :=
  if errTruthy state.error then state
  else
    match queryResult with
    | .ok candidates => { state with candidates := some candidates }
    | .error _ =>
        { state with error := some "Failed to query candidates. Returning empty matches."
                   , candidates := some [] }

/-- Embedding of `MatchingGraph.node_filter_candidates` (lines 104-170).
The two oracles model `get_user_connections` and `get_recent_matches`;
`Except.error` is a raised exception, handled by the inner `try` blocks
with empty-exclusion defaults. The outer `try` cannot fail in the model
(its body is total), so only the happy path is embedded. -/
noncomputable def node_filter_candidates (connectionsResult : Except Unit Connections)
    (recentResult : Except Unit (List RecentMatch))
    (state : MatchingState) : MatchingState :=
  if errTruthy state.error then state
  else
    let connections := match connectionsResult with
      | .ok c => c
      | .error _ => ({ } : Connections)
    let recent := match recentResult with
      | .ok r => r
      | .error _ => []
    let excluded_uids := connections.accepted ++ connections.pending ++ connections.blocked
      ++ (recent.filterMap fun m =>
            match m.matchedUserId with
            | some u => if u.isEmpty then none else some u
            | none => none)
    let candidates := (state.candidates.getD []).filter fun c =>
      match c.uid with
      | some u => decide (u ∉ excluded_uids ∧ u ≠ state.user_id)
      | none => true
    let radius := ((state.preferences.getD {}).radiusMeters).getD 200000
    let min_score := ((state.preferences.getD {}).minScore).getD 30
    let filtered := filter_candidates_basic candidates (state.user_profile.getD {}) radius min_score
    { state with filtered_candidates := some filtered }

/-- Embedding of `MatchingGraph.node_score_matches` (lines 172-219). The
`int()` cast of `base_score * distance_mult` is `Int.floor`; the product is
non-negative (base is at least 40 and the multiplier at least 0), so
Python's truncation toward zero coincides with the floor. -/
noncomputable def node_score_matches (state : MatchingState) : MatchingState :=
  if errTruthy state.error then state
  else
    let radius := ((state.preferences.getD {}).radiusMeters).getD 200000
    let user_profile := state.user_profile.getD {}
    let scored := (state.filtered_candidates.getD []).map fun candidate =>
      let base_score := calculate_base_compatibility_score user_profile candidate
      let distance_mult : ℝ :=
        match user_profile.locationLat, user_profile.locationLng,
              candidate.locationLat, candidate.locationLng with
        | some ulat, some ulng, some clat, some clng =>
            calculate_distance_score (ulat : ℝ) (ulng : ℝ) (clat : ℝ) (clng : ℝ) (radius : ℝ)
        | _, _, _, _ => 1
      { profile := candidate
      , deterministic_score := some ⌊(base_score : ℝ) * distance_mult⌋
      , base_score := some base_score
      , distance_multiplier := some distance_mult }
    { state with scored_matches := some scored }

/-- Sort key of `node_rank_top_matches`: `x.get("deterministic_score", 0)`. -/
def scoreKey (s : Scored) : Int := s.deterministic_score.getD 0

/-- Comparator of Python's `sorted(..., key=..., reverse=True)`: a stable
sort that places `a` before `b` whenever `key a > key b`, keeping the
original order on ties — exactly stable `mergeSort` with
`le a b := key b ≤ key a`. -/
def rankLe (a b : Scored) : Bool := decide (scoreKey b ≤ scoreKey a)

/-- Embedding of `MatchingGraph.node_rank_top_matches` (lines 227-247).
`sorted` cannot raise, so the `except` arm is unreachable in the model. -/
def node_rank_top_matches (state : MatchingState) : MatchingState :=
  if errTruthy state.error then state
  else
    let sorted_matches := (state.scored_matches.getD []).mergeSort rankLe
    { state with top_matches := some (sorted_matches.take 10) }

/-- Hard-coded fallback reasoning substituted by `node_generate_reasoning`
when the chain invocation raises (lines 288-294 of
`src/graphs/matching.py`). -/
def fallbackReasoning (m : Scored) : Reasoning :=
  { why_compatible := "Based on shared interests and proximity."
  , conversation_starter := "Hey! Want to connect on CampusConnect?"
  , adjusted_score := scoreKey m }

/-- Embedding of `MatchingGraph.node_generate_reasoning` (lines 249-296).
The oracle models one `chain.invoke` per match; `none` is a raised
exception, caught per match with the hard-coded fallback. The source
indexes `match["uid"]`, assuming the key is present; modelled with
`uid.getD ""`. Note that when `error` is truthy (or there are no top
matches) the stage still writes `llm_reasoning = {}`. -/
def node_generate_reasoning (oracle : Scored → Option LlmReasoningResult)
    (state : MatchingState) : MatchingState :=
  if errTruthy state.error || (state.top_matches.getD []).isEmpty then
    { state with llm_reasoning := some [] }
  else
    let reasoning := (state.top_matches.getD []).map fun m =>
      match oracle m with
      | some result =>
          (m.profile.uid.getD "",
            ({ why_compatible := result.why_compatible.getD ""
             , conversation_starter := result.conversation_starter.getD ""
             , adjusted_score := result.compatibility_score.getD (scoreKey m) } : Reasoning))
      | none => (m.profile.uid.getD "", fallbackReasoning m)
    { state with llm_reasoning := some reasoning }

/-- Embedding of `MatchingGraph.node_finalize_response` (lines 298-357).
The `save_match` write is fire-and-forget (failures only logged), so it
does not appear in the state transformation. -/
def node_finalize_response (state : MatchingState) : MatchingState :=
  if errTruthy state.error then
    { state with
        final_matches := some []
      , response_metadata := some
          { success := false
          , error := state.error
          , reasoning_applied := false
          , total_candidates := (state.candidates.getD []).length
          , filtered_count := 0 } }
  else
    let reasoning := state.llm_reasoning.getD []
    let final_matches := (state.top_matches.getD []).map fun m =>
      let match_id := m.profile.uid.getD ""
      let match_reasoning := reasoning.lookup match_id
      { id := match_id
      , name := m.profile.name
      , major := m.profile.major
      , year := m.profile.year
      , bio := m.profile.bio
      , interests := m.profile.interests.getD []
      , score := match match_reasoning with
                 | some r => r.adjusted_score
                 | none => scoreKey m
      , why_compatible := (match_reasoning.map (·.why_compatible)).getD ""
      , conversation_starter := (match_reasoning.map (·.conversation_starter)).getD "" }
    { state with
        final_matches := some final_matches
      , response_metadata := some
          { success := true
          , error := none
          , reasoning_applied := !reasoning.isEmpty
          , total_candidates := (state.candidates.getD []).length
          , filtered_count := (state.filtered_candidates.getD []).length } }

/-- The full matching pipeline: the linear stage graph built in
`MatchingGraph.build_graph` (lines 37-58). -/
noncomputable def run_matching
    (profileResult : Except Unit (Option Profile))
    (queryResult : Except Unit (List Profile))
    (connectionsResult : Except Unit Connections)
    (recentResult : Except Unit (List RecentMatch))
    (reasoningOracle : Scored → Option LlmReasoningResult)
    (state : MatchingState) : MatchingState :=
  node_finalize_response
    (node_generate_reasoning reasoningOracle
      (node_rank_top_matches
        (node_score_matches
          (node_filter_candidates connectionsResult recentResult
            (node_query_candidates queryResult
              (node_fetch_user_profile profileResult state))))))

end MatchingGraph

/-- Python's `str.lower()`, as a structural map over the characters. -/
def pyLower (s : String) : String := String.mk (s.toList.map Char.toLower)

/-- Python's `str.strip()`: drop whitespace from both ends (structural, so
that concrete runs evaluate). -/
def pyStrip (s : String) : String :=
  String.mk (((s.toList.dropWhile Char.isWhitespace).reverse.dropWhile Char.isWhitespace).reverse)

/-- Substring test `needle in haystack` on character lists. -/
def substrAux (needle haystack : List Char) : Bool :=
  (List.range (haystack.length + 1)).any fun i => needle.isPrefixOf (haystack.drop i)

/-- Python's `needle in haystack` for strings. -/
def strContains (haystack needle : String) : Bool :=
  substrAux needle.toList haystack.toList

/-- Helper for `re.search(p + ".*" + q, s)`: the pattern `q` matched at
some offset of `rest` with no newline consumed by `.*` (the regex dot does
not match a newline). -/
def noNewlineThen (q rest : List Char) : Bool :=
  (List.range (rest.length + 1)).any fun k =>
    !(rest.take k).contains '\n' && q.isPrefixOf (rest.drop k)

/-- Model of `re.search` for the two phishing regexes, both of the shape
`p.*q` with literal `p` and `q`: a match exists iff `p` occurs and `q`
occurs after it with no intervening newline. -/
def dotStarSearch (s : String) (p q : String) : Bool :=
  (List.range (s.toList.length + 1)).any fun i =>
    p.toList.isPrefixOf (s.toList.drop i)
      && noNewlineThen q.toList (s.toList.drop (i + p.toList.length))

/-- `SPAM_KEYWORDS` from `src/graphs/safety.py`. -/
def SPAM_KEYWORDS : List String := ["click here", "buy now", "limited offer"]

/-- `BANNED_WORDS` from `src/graphs/safety.py`. -/
def BANNED_WORDS : List String := ["slur1", "slur2"]

/-- `PHISHING_PATTERNS` from `src/graphs/safety.py`, each regex `p.*q`
represented by its literal pieces. -/
def PHISHING_PATTERNS : List (String × String) :=
  [("verify", "account"), ("confirm", "password")]

/-- A safety flag dict; fields optional because `node_determine_action`
reads them with `dict.get`. -/
structure SafetyFlag where
  flag : Option String := none
  confidence : Option ℚ := none
  rule : Option String := none
  deriving Repr, DecidableEq

/-- Parsed output of the safety-classification chain, with `result.get`
defaults applied by the caller. -/
structure LlmSafetyResult where
  flags : Option (List String) := none
  confidence : Option ℚ := none
  action : Option String := none
  is_safe : Option Bool := none

/-- `SafetyState` from `src/state.py` (`total=False` TypedDict). -/
structure SafetyState where
  content : Option String := none
  content_type : Option String := none
  user_id : Option String := none
  tenant_id : Option String := none
  flags : Option (List SafetyFlag) := none
  safe : Option Bool := none
  recommended_action : Option String := none
  error : Option String := none
  confidence : Option ℚ := none

/-- Python's `max(l, default=d)`: the greatest element of `l`, or `d` when
`l` is empty (the default is not compared against the elements). -/
def pyMaxDefault (l : List ℚ) (d : ℚ) : ℚ :=
  match l with
  | [] => d
  | x :: xs => xs.foldl max x

namespace SafetyGraph

/-- Flag dict appended for each spam keyword found (lines 56-63 of
`src/graphs/safety.py`). -/
def spamFlag : SafetyFlag :=
  { flag := some "spam", confidence := some (8/10), rule := some "keyword_match" }

/-- Flag dict appended for each phishing regex that matches (lines 65-73). -/
def phishingFlag : SafetyFlag :=
  { flag := some "phishing", confidence := some (9/10), rule := some "regex_pattern" }

/-- Flag dict appended for each banned word found (lines 84-91). -/
def explicitFlag : SafetyFlag :=
  { flag := some "explicit", confidence := some (19/20), rule := some "banned_word" }

/-- Embedding of `SafetyGraph.node_detect_spam_patterns` (lines 47-74): one
spam flag per matching keyword, then one phishing flag per matching
regex, appended to the copied flag list. -/
def node_detect_spam_patterns (state : SafetyState) : SafetyState :=
  let content := pyLower (state.content.getD "")
  let flags := state.flags.getD []
  let flags := flags ++ (SPAM_KEYWORDS.filter fun keyword => strContains content keyword).map fun _ => spamFlag
  let flags := flags ++ (PHISHING_PATTERNS.filter fun pat => dotStarSearch content pat.1 pat.2).map fun _ => phishingFlag
  { state with flags := some flags }

/-- Embedding of `SafetyGraph.node_check_explicit_content` (lines 76-93):
one explicit flag per banned word contained in the lowercased content. -/
def node_check_explicit_content (state : SafetyState) : SafetyState :=
  let content := pyLower (state.content.getD "")
  let flags := state.flags.getD []
  let flags := flags ++ (BANNED_WORDS.filter fun word => strContains content word).map fun _ => explicitFlag
  { state with flags := some flags }

/-- Embedding of `SafetyGraph.node_classify_uncertain` (lines 95-136). The
oracle models `chain.invoke`; `none` is a raised exception, caught with
`confidence = max_conf or 0.5`. -/
def node_classify_uncertain (oracle : Option LlmSafetyResult)
    (state : SafetyState) : SafetyState :=
  let flags := state.flags.getD []
  let max_conf := pyMaxDefault (flags.map fun f => f.confidence.getD 0) 0
  if flags ≠ [] ∧ max_conf ≥ 3/4 then
    { state with confidence := some max_conf }
  else
    match oracle with
    | some result =>
        let llm_flags := result.flags.getD []
        let llm_conf := result.confidence.getD 0
        let llm_action := result.action.getD "review"
        let llm_safe := result.is_safe.getD false
        { state with
            flags := some (flags ++ llm_flags.map fun fl =>
              { flag := some fl, confidence := some llm_conf, rule := some "llm_classification" })
          , confidence := some llm_conf
          , recommended_action := some llm_action
          , safe := some llm_safe }
    | none =>
        { state with confidence := some (if max_conf = 0 then 1/2 else max_conf) }

/-- Embedding of `SafetyGraph.node_determine_action` (lines 138-157). Note
that a `recommended_action` already present in the state (set by the LLM
branch of `classify_uncertain`) wins over the rule-based action. -/
def node_determine_action (state : SafetyState) : SafetyState :=
  let flags := state.flags.getD []
  let flag_names := flags.map fun f => f.flag
  let confidence := state.confidence.getD 0
  let action :=
    if some "explicit" ∈ flag_names ∨ some "phishing" ∈ flag_names then "reject"
    else if flags ≠ [] ∧ confidence ≥ 7/10 then "review"
    else "allow"
  { state with
      recommended_action := some (state.recommended_action.getD action)
    , safe := some (action = "allow") }

/-- Embedding of `SafetyGraph.node_finalize_response` (lines 159-167). -/
def node_finalize_response (state : SafetyState) : SafetyState :=
  { state with
      safe := some (state.safe.getD false)
    , recommended_action := some (state.recommended_action.getD "review") }

/-- The full safety pipeline: the linear stage graph built in
`SafetyGraph.build_graph` (lines 31-45). -/
def run_safety (oracle : Option LlmSafetyResult) (state : SafetyState) : SafetyState :=
  node_finalize_response
    (node_determine_action
      (node_classify_uncertain oracle
        (node_check_explicit_content
          (node_detect_spam_patterns state))))

/-- Initial safety state: the moderation request carries the content and
its type; every progressively-populated key is absent. -/
def initSafetyState (content content_type : String) : SafetyState :=
  { content := some content, content_type := some content_type }

end SafetyGraph

/-- An event record read by `_score_event` in
`src/graphs/events_communities.py`. `startTime` is the POSIX timestamp of
the parsed datetime (`_parse_event_time` returns `None` for values that
are neither datetimes nor numbers, giving `none` here). Counts are
rationals because they are read from JSON and passed through `float()`. -/
structure EventRec where
  category : Option String := none
  startTime : Option ℚ := none
  attendeesCount : Option ℚ := none
  deriving Repr, DecidableEq

/-- A community group record read by `_score_group`. -/
structure GroupRec where
  tags : Option (List String) := none
  memberCount : Option ℚ := none
  deriving Repr, DecidableEq

/-- Embedding of `_score_event` from `src/graphs/events_communities.py`
(lines 36-53), with `now` the value of `datetime.utcnow()`. The category
bonus requires a truthy (non-empty) category contained in the user's
interest set; `event.get("attendeesCount", 0) or 0` collapses an absent,
null or zero count to 0, which `getD 0` captures. -/
def score_event (event : EventRec) (user_profile : Profile) (now : ℚ) : ℚ :=
  let score : ℚ := 50
  let score := score +
    (match event.category with
     | some category =>
         if ¬category.isEmpty ∧ category ∈ user_profile.interests.getD [] then 15 else 0
     | none => 0)
  let score := score +
    (match event.startTime with
     | some start_time =>
         let hours_until := (start_time - now) / 3600
         if 0 ≤ hours_until ∧ hours_until ≤ 72 then 10 else 0
     | none => 0)
  let attendees := event.attendeesCount.getD 0
  score + min (attendees / 10) 15

/-- Embedding of `_score_group` from `src/graphs/events_communities.py`
(lines 56-67). -/
def score_group (group : GroupRec) (user_profile : Profile) : ℚ :=
  let score : ℚ := 50
  let common := sharedInterestCount (user_profile.interests.getD []) (group.tags.getD [])
  let score := score + min ((common : ℚ) * 5) 20
  let members := group.memberCount.getD 0
  score + min (members / 50) 15

/-- One chat message dict, read with `m.get("senderName", "Unknown")` and
`m.get("content", "")`. -/
structure ChatMessage where
  senderName : Option String := none
  content : Option String := none
  deriving Repr, DecidableEq

/-- Backend response for `get_conversation_by_id`: the `success`/`error`
envelope plus the conversation payload (an opaque JSON dict, modelled as a
key-value list). -/
structure ConvResult where
  success : Option Bool := none
  error : Option String := none
  conversation : Option (List (String × String)) := none

/-- Backend response for `get_conversation_messages`. -/
structure MsgsResult where
  success : Option Bool := none
  error : Option String := none
  messages : Option (List ChatMessage) := none

/-- Output of the conversation-summary chain: the `summary` attribute or
key when present, and the `str(out)` fallback text. -/
structure SummaryOut where
  summary : Option String := none
  asString : String := ""

/-- `ChatAssistantState` from `src/state.py` (`total=False` TypedDict).
The fields not touched by the summarise path are omitted keys of the same
dict and modelled alike. -/
structure ChatAssistantState where
  action : Option String := none
  conversation_id : Option String := none
  message : Option String := none
  auth_token : Option String := none
  user_id : Option String := none
  tenant_id : Option String := none
  conversations : Option (List (List (String × String))) := none
  messages : Option (List ChatMessage) := none
  conversation_metadata : Option (List (String × String)) := none
  summary : Option String := none
  draft_reply : Option String := none
  error : Option String := none

namespace ChatAssistantGraph

/-- Embedding of `_check_backend_error` from `src/graphs/chat_assistant.py`
(lines 34-38): an error string when the result has `success: False`. -/
def check_backend_error (success : Option Bool) (error : Option String)
    (context : String) : Option String :=
  if success = some false then some (error.getD (context ++ " failed")) else none

/-- The `or`-chain extracting the summary text from the chain output
(lines 181-185): the truthy `summary` attribute or key, else `str(out)`. -/
def pickSummary (out : SummaryOut) : String :=
  match out.summary with
  | some s => if s.isEmpty then out.asString else s
  | none => out.asString

/-- The joined `senderName: content` transcript (lines 174-177). -/
def messagesText (messages : List ChatMessage) : String :=
  String.intercalate "\n"
    (messages.map fun m => (m.senderName.getD "Unknown") ++ ": " ++ (m.content.getD ""))

/-- Embedding of `ChatAssistantGraph.node_summarise_conversation`
(`src/graphs/chat_assistant.py` lines 152-198). The oracles model the two
backend calls and the LLM chain; an LLM oracle of `none` is the raised
exception, which this stage answers by setting
`error = "Failed to summarise conversation"`. -/
def node_summarise_conversation (metaResult : ConvResult) (msgsResult : MsgsResult)
    (llmResult : Option SummaryOut) (state : ChatAssistantState) : ChatAssistantState :=
  match check_backend_error metaResult.success metaResult.error "Get conversation" with
  | some err => { state with error := some err }
  | none =>
    let state := { state with conversation_metadata := some (metaResult.conversation.getD []) }
    match check_backend_error msgsResult.success msgsResult.error "Get messages" with
    | some err => { state with error := some err }
    | none =>
      let messages := msgsResult.messages.getD []
      let state := { state with messages := some messages }
      if (pyStrip (messagesText messages)).isEmpty then
        { state with summary := some "No messages in this conversation yet." }
      else
        match llmResult with
        | some out =>
            let summary := pickSummary out
            { state with summary := some (if summary.isEmpty then "No summary available." else summary) }
        | none => { state with error := some "Failed to summarise conversation" }

/-- Embedding of `ChatAssistantGraph.node_finalize_response` (lines
244-247): the chat finalize stage returns the state unchanged. -/
def node_finalize_response (state : ChatAssistantState) : ChatAssistantState :=
  state

end ChatAssistantGraph

/-! Concrete records used to instantiate the theorems below. -/

/-- A candidate with deterministic score 60, listed first in the scored
list. -/
def exScored60 : Scored := { profile := { uid := some "second" }, deterministic_score := some 60 }

/-- A candidate with deterministic score 80, listed second in the scored
list. -/
def exScored80 : Scored := { profile := { uid := some "first" }, deterministic_score := some 80 }

/-- A matching state holding the 60-score candidate before the 80-score
candidate. -/
def exRankState : MatchingState :=
  { user_id := "u", tenant_id := "t", scored_matches := some [exScored60, exScored80] }

/-- A minimal matching request state. -/
def exMatchInput : MatchingState := { user_id := "u1", tenant_id := "t1" }

/-- The state after `node_fetch_user_profile` hits a raised
`FirestoreUnavailableError`. -/
def exErrState : MatchingState := MatchingGraph.node_fetch_user_profile (.error ()) exMatchInput

/-- A matching state with one ranked top match and no error. -/
def exTopState : MatchingState :=
  { user_id := "u", tenant_id := "t", top_matches := some [exScored80] }

/-- A reasoning oracle whose every invocation raises. -/
def exFailOracle : Scored → Option LlmReasoningResult := fun _ => none

/-- A chat-assistant summarise request. -/
def exChatState : ChatAssistantState :=
  { action := some "summarise_conversation", conversation_id := some "c1"
  , auth_token := some "tok", user_id := some "u1" }

/-- A successful `get_conversation_by_id` backend response. -/
def exMeta : ConvResult := { success := some true, conversation := some [] }

/-- A successful `get_conversation_messages` backend response with one
message. -/
def exMsgs : MsgsResult :=
  { success := some true, messages := some [{ senderName := some "Alice", content := some "hi" }] }

/-- A user profile without coordinates. -/
def exUser : Profile := { uid := some "u0", major := some "CS" }

/-- A candidate profile without coordinates sharing the user's major. -/
def exCand : Profile := { uid := some "c0", major := some "CS" }

/-! Helper lemmas shared by the claim theorems. -/

/-- A non-empty error string is truthy. -/
theorem errTruthy_some (e : String) (h : e ≠ "") : errTruthy (some e) = true := by
  have he : e.isEmpty = false := by
    cases hee : e.isEmpty
    · rfl
    · simp only [String.isEmpty_iff] at hee
      exact absurd hee h
  simp [errTruthy, he]

/-- Membership characterization of the candidate pre-filter. -/
theorem mem_filter_candidates_basic (cands : List Profile) (user : Profile)
    (radius ms : Int) (c : Profile) :
    c ∈ filter_candidates_basic cands user radius ms ↔
      c ∈ cands ∧ c.uid ≠ user.uid ∧ ¬ rejectedByDistance user c radius ∧
        ¬ (calculate_base_compatibility_score user c < ms) := by
  simp only [filter_candidates_basic, List.mem_filter]
  constructor
  · rintro ⟨hm, hp⟩
    refine ⟨hm, ?_⟩
    split at hp
    · simp at hp
    · split at hp
      · simp at hp
      · split at hp
        · simp at hp
        · refine ⟨by assumption, by assumption, by assumption⟩
  · rintro ⟨hm, h1, h2, h3⟩
    refine ⟨hm, ?_⟩
    rw [if_neg h1, if_neg h2, if_neg h3]

/-- A missing coordinate on either side disables the distance rejection. -/
theorem noRejectIfMissing (user c : Profile) (radius : Int)
    (h : user.locationLat = none ∨ user.locationLng = none ∨
         c.locationLat = none ∨ c.locationLng = none) :
    ¬ rejectedByDistance user c radius := by
  unfold rejectedByDistance
  cases hu : user.locationLat <;> cases hv : user.locationLng <;>
    cases hc : c.locationLat <;> cases hd : c.locationLng <;> simp_all

/-- The haversine distance from a point to itself is zero. -/
theorem haversine_self (lat lng : ℝ) : haversine_meters lat lng lat lng = 0 := by
  simp [haversine_meters, atan2, Real.sqrt_one]

/-- The seed of Python's `max` bounds the fold from below. -/
theorem base_le_foldl_max (xs : List ℚ) : ∀ (x : ℚ), x ≤ xs.foldl max x := by
  induction xs with
  | nil => simp
  | cons y ys ih => intro x; exact le_trans (le_max_left x y) (ih (max x y))

/-- Every element bounds Python's `max` fold from below. -/
theorem mem_le_foldl_max (xs : List ℚ) : ∀ (x a : ℚ), a ∈ xs → a ≤ xs.foldl max x := by
  induction xs with
  | nil => intro x a h; cases h
  | cons y ys ih =>
    intro x a h
    rcases List.mem_cons.mp h with rfl | h
    · exact le_trans (le_max_right x a) (base_le_foldl_max ys (max x a))
    · exact ih (max x y) a h

/-- Every list element is at most `max(l, default=d)`. -/
theorem mem_le_pyMaxDefault (l : List ℚ) (d a : ℚ) (h : a ∈ l) : a ≤ pyMaxDefault l d := by
  match l with
  | [] => cases h
  | x :: xs =>
    rcases List.mem_cons.mp h with rfl | h
    · exact base_le_foldl_max xs a
    · exact mem_le_foldl_max xs x a h

namespace SafetyGraph

/-- When a local flag already reached confidence 0.75, `classify_uncertain`
returns early without touching the oracle. -/
theorem classify_early (oracle : Option LlmSafetyResult) (s : SafetyState)
    (h1 : s.flags.getD [] ≠ [])
    (h2 : pyMaxDefault ((s.flags.getD []).map fun f => f.confidence.getD 0) 0 ≥ 3/4) :
    node_classify_uncertain oracle s =
      { s with confidence := some (pyMaxDefault ((s.flags.getD []).map fun f => f.confidence.getD 0) 0) } := by
  simp only [node_classify_uncertain]
  rw [if_pos ⟨h1, h2⟩]

/-- An `explicit` flag forces the rule-based action to `reject` when the
LLM branch never set a recommendation. -/
theorem determine_reject (s : SafetyState)
    (h : some "explicit" ∈ (s.flags.getD []).map (fun f => f.flag))
    (h2 : s.recommended_action = none) :
    (node_determine_action s).recommended_action = some "reject" := by
  simp only [node_determine_action]
  rw [if_pos (Or.inl h)]
  simp [h2]

/-- The safety finalize stage keeps an already-present recommendation. -/
theorem finalize_keeps (s : SafetyState) (a : String) (h : s.recommended_action = some a) :
    (node_finalize_response s).recommended_action = some a := by
  simp [node_finalize_response, h]

end SafetyGraph

namespace MatchingGraph

/-- With a truthy error, `query_candidates` passes the state through. -/
theorem query_id (q : Except Unit (List Profile)) (s : MatchingState)
    (h : errTruthy s.error = true) : node_query_candidates q s = s := by
  simp [node_query_candidates, h]

/-- With a truthy error, `filter_candidates` passes the state through. -/
theorem filter_id (cn : Except Unit Connections) (rc : Except Unit (List RecentMatch))
    (s : MatchingState) (h : errTruthy s.error = true) :
    node_filter_candidates cn rc s = s := by
  simp [node_filter_candidates, h]

/-- With a truthy error, `score_matches` passes the state through. -/
theorem score_id (s : MatchingState) (h : errTruthy s.error = true) :
    node_score_matches s = s := by
  simp [node_score_matches, h]

/-- With a truthy error, `rank_top_matches` passes the state through. -/
theorem rank_id (s : MatchingState) (h : errTruthy s.error = true) :
    node_rank_top_matches s = s := by
  simp [node_rank_top_matches, h]

/-- With a truthy error, `generate_reasoning` does not pass the state
through: it writes the empty reasoning map. -/
theorem reasoning_err (oracle : Scored → Option LlmReasoningResult) (s : MatchingState)
    (h : errTruthy s.error = true) :
    node_generate_reasoning oracle s = { s with llm_reasoning := some [] } := by
  simp [node_generate_reasoning, h]

/-- The reasoning stage never writes the error key. -/
theorem reasoning_error_eq (oracle : Scored → Option LlmReasoningResult) (s : MatchingState) :
    (node_generate_reasoning oracle s).error = s.error := by
  simp only [node_generate_reasoning]
  split <;> rfl

/-- The matching finalize stage never changes the error key. -/
theorem finalize_error_eq (s : MatchingState) :
    (node_finalize_response s).error = s.error := by
  simp only [node_finalize_response]
  split <;> rfl

/-- The rank comparator is transitive. -/
theorem rankLe_trans : ∀ (a b c : Scored), rankLe a b → rankLe b c → rankLe a c := by
  intro a b c
  simp only [rankLe, decide_eq_true_eq]
  omega

/-- The rank comparator is total. -/
theorem rankLe_total : ∀ (a b : Scored), rankLe a b || rankLe b a := by
  intro a b
  simp only [rankLe, Bool.or_eq_true, decide_eq_true_eq]
  exact le_total _ _

end MatchingGraph

namespace ChatAssistantGraph

/-- When both backend calls succeed and the transcript is non-blank, a
raised LLM call makes `summarise_conversation` set the error key. -/
theorem summarise_llm_fail (s : ChatAssistantState) (metaR : ConvResult) (msgsR : MsgsResult)
    (h1 : check_backend_error metaR.success metaR.error "Get conversation" = none)
    (h2 : check_backend_error msgsR.success msgsR.error "Get messages" = none)
    (h3 : (pyStrip (messagesText (msgsR.messages.getD []))).isEmpty = false) :
    (node_summarise_conversation metaR msgsR none s).error =
      some "Failed to summarise conversation" := by
  simp only [node_summarise_conversation, h1, h2, h3]
  simp

end ChatAssistantGraph

/-! Claim theorems. -/

/-- C1 (amended). In the matching pipeline an augmentation failure is
caught with the hard-coded fallback reasoning and never touches the error
key; but in the chat assistant pipeline, a raised summarise LLM call makes
the stage set `error = "Failed to summarise conversation"`, so augmentation
failures are not error-free in every pipeline. -/
theorem C1_augmentation_fallback :
    (∀ (oracle : Scored → Option LlmReasoningResult) (s : MatchingState),
        (MatchingGraph.node_generate_reasoning oracle s).error = s.error) ∧
    (∀ (oracle : Scored → Option LlmReasoningResult) (s : MatchingState) (m : Scored),
        errTruthy s.error = false → m ∈ s.top_matches.getD [] → oracle m = none →
        (m.profile.uid.getD "", MatchingGraph.fallbackReasoning m) ∈
          (MatchingGraph.node_generate_reasoning oracle s).llm_reasoning.getD []) ∧
    (∀ (s : ChatAssistantState) (metaR : ConvResult) (msgsR : MsgsResult),
        ChatAssistantGraph.check_backend_error metaR.success metaR.error "Get conversation" = none →
        ChatAssistantGraph.check_backend_error msgsR.success msgsR.error "Get messages" = none →
        (pyStrip (ChatAssistantGraph.messagesText (msgsR.messages.getD []))).isEmpty = false →
        (ChatAssistantGraph.node_summarise_conversation metaR msgsR none s).error =
          some "Failed to summarise conversation") := by
  refine ⟨?_, ?_, ?_⟩
  · exact fun oracle s => MatchingGraph.reasoning_error_eq oracle s
  · intro oracle s m herr hmem hora
    have hne : (s.top_matches.getD []).isEmpty = false := by
      cases htm : s.top_matches.getD [] with
      | nil => rw [htm] at hmem; cases hmem
      | cons x xs => rfl
    simp only [MatchingGraph.node_generate_reasoning, herr, hne, Bool.or_self, if_neg,
      Bool.false_eq_true, not_false_iff, Option.getD_some]
    refine List.mem_map.mpr ⟨m, hmem, ?_⟩
    rw [hora]
  · exact fun s metaR msgsR h1 h2 h3 =>
      ChatAssistantGraph.summarise_llm_fail s metaR msgsR h1 h2 h3

/-- Witness for C1 at a concrete run: a failing reasoning oracle leaves the
matching error unset and installs the fallback text, while a failing
summarise chain sets the chat error. -/
theorem C1_witness :
    (MatchingGraph.node_generate_reasoning exFailOracle exTopState).error = exTopState.error ∧
    (exScored80.profile.uid.getD "", MatchingGraph.fallbackReasoning exScored80) ∈
      (MatchingGraph.node_generate_reasoning exFailOracle exTopState).llm_reasoning.getD [] ∧
    (ChatAssistantGraph.node_summarise_conversation exMeta exMsgs none exChatState).error =
      some "Failed to summarise conversation" :=
  ⟨C1_augmentation_fallback.1 exFailOracle exTopState,
   C1_augmentation_fallback.2.1 exFailOracle exTopState exScored80 rfl (by simp [exTopState]) rfl,
   C1_augmentation_fallback.2.2 exChatState exMeta exMsgs rfl rfl (by decide)⟩

/-- Counterexample for C1 as stated: in the chat assistant pipeline a run
whose only failure is the summarise LLM call ends with a non-empty error in
the final state. -/
theorem C1_counterexample :
    (ChatAssistantGraph.node_finalize_response
      (ChatAssistantGraph.node_summarise_conversation exMeta exMsgs none exChatState)).error
      = some "Failed to summarise conversation" ∧
    "Failed to summarise conversation" ≠ "" :=
  ⟨ChatAssistantGraph.summarise_llm_fail exChatState exMeta exMsgs rfl rfl (by decide),
   by decide⟩

/-- C2 (amended). Once the matching state's error is non-empty, the query,
filter, score and rank stages pass the state through unchanged, and the
reasoning and finalize stages preserve the error; but `generate_reasoning`
is not a pure pass-through: it overwrites `llm_reasoning` with the empty
map. -/
theorem C2_error_frame (s : MatchingState) (e : String)
    (q : Except Unit (List Profile)) (cn : Except Unit Connections)
    (rc : Except Unit (List RecentMatch)) (oracle : Scored → Option LlmReasoningResult)
    (hse : s.error = some e) (hne : e ≠ "") :
    MatchingGraph.node_query_candidates q s = s ∧
    MatchingGraph.node_filter_candidates cn rc s = s ∧
    MatchingGraph.node_score_matches s = s ∧
    MatchingGraph.node_rank_top_matches s = s ∧
    MatchingGraph.node_generate_reasoning oracle s = { s with llm_reasoning := some [] } ∧
    (MatchingGraph.node_generate_reasoning oracle s).error = s.error ∧
    (MatchingGraph.node_finalize_response s).error = s.error := by
  have h : errTruthy s.error = true := by rw [hse]; exact errTruthy_some e hne
  exact ⟨MatchingGraph.query_id q s h, MatchingGraph.filter_id cn rc s h,
    MatchingGraph.score_id s h, MatchingGraph.rank_id s h,
    MatchingGraph.reasoning_err oracle s h, MatchingGraph.reasoning_error_eq oracle s,
    MatchingGraph.finalize_error_eq s⟩

/-- Witness for C2 on the state produced by a failed profile fetch. -/
theorem C2_witness :
    MatchingGraph.node_query_candidates (.error ()) exErrState = exErrState ∧
    MatchingGraph.node_generate_reasoning exFailOracle exErrState =
      { exErrState with llm_reasoning := some [] } :=
  ⟨(C2_error_frame exErrState "Firestore unavailable. Returning empty matches."
      (.error ()) (.error ()) (.error ()) exFailOracle rfl (by decide)).1,
   (C2_error_frame exErrState "Firestore unavailable. Returning empty matches."
      (.error ()) (.error ()) (.error ()) exFailOracle rfl (by decide)).2.2.2.2.1⟩

/-- Counterexample for C2 as stated: in a matching run whose profile fetch
fails, the error is truthy after the first stage, yet the pre-finalize
`generate_reasoning` stage changes the data-bearing `llm_reasoning` key
(from absent to the empty map). -/
theorem C2_counterexample :
    errTruthy exErrState.error = true ∧
    (MatchingGraph.node_generate_reasoning exFailOracle
      (MatchingGraph.node_rank_top_matches (MatchingGraph.node_score_matches
        (MatchingGraph.node_filter_candidates (.error ()) (.error ())
          (MatchingGraph.node_query_candidates (.error ()) exErrState))))).llm_reasoning
      ≠ exErrState.llm_reasoning := by
  have h : errTruthy exErrState.error = true := rfl
  rw [MatchingGraph.query_id _ _ h, MatchingGraph.filter_id _ _ _ h,
    MatchingGraph.score_id _ h, MatchingGraph.rank_id _ h,
    MatchingGraph.reasoning_err _ _ h]
  exact ⟨h, by simp [exErrState, exMatchInput, MatchingGraph.node_fetch_user_profile]⟩

/-- C3. The compatibility score agrees with the spec's reference
definition on every pair of records, and the spec's concrete example (two
records with major CS, empty interests, year 1) scores exactly 65. -/
theorem C3_score_matches_reference :
    (∀ user candidate : Profile,
      calculate_base_compatibility_score user candidate = compatibility_score_spec user candidate)
    ∧ calculate_base_compatibility_score
        { major := some "CS", interests := some [], year := some 1 }
        { major := some "CS", interests := some [], year := some 1 } = 65 := by
  constructor
  · intro u c
    simp only [calculate_base_compatibility_score, compatibility_score_spec]
    ring_nf
  · decide

/-- C4. For every pair of records, whatever fields are present or absent,
the compatibility score lies in the interval from 0 to 100. -/
theorem C4_score_in_range (u c : Profile) :
    0 ≤ calculate_base_compatibility_score u c ∧ calculate_base_compatibility_score u c ≤ 100 := by
  simp only [calculate_base_compatibility_score]
  split <;> split <;> split <;> omega

/-- C5. The pre-filter output never contains a candidate carrying the
subject's own uid, never contains one scoring below the threshold, and a
candidate is excluded for distance only when both sides have coordinates
and the haversine distance exceeds the radius; any missing coordinate
skips the distance check instead of rejecting. -/
theorem C5_prefilter (cands : List Profile) (user : Profile) (radius ms : Int) :
    (∀ c ∈ filter_candidates_basic cands user radius ms,
        c.uid ≠ user.uid ∧ ¬ (calculate_base_compatibility_score user c < ms)) ∧
    (∀ c ∈ cands, c.uid ≠ user.uid → ¬ rejectedByDistance user c radius →
        ¬ (calculate_base_compatibility_score user c < ms) →
        c ∈ filter_candidates_basic cands user radius ms) ∧
    (∀ c : Profile, (user.locationLat = none ∨ user.locationLng = none ∨
        c.locationLat = none ∨ c.locationLng = none) →
        ¬ rejectedByDistance user c radius) := by
  refine ⟨?_, ?_, ?_⟩
  · intro c hc
    have h := (mem_filter_candidates_basic cands user radius ms c).mp hc
    exact ⟨h.2.1, h.2.2.2⟩
  · intro c hc h1 h2 h3
    exact (mem_filter_candidates_basic cands user radius ms c).mpr ⟨hc, h1, h2, h3⟩
  · intro c h
    exact noRejectIfMissing user c radius h

/-- Witness for C5: a coordinate-free candidate distinct from the user and
above threshold passes the filter, and the missing coordinates disable the
distance rejection. -/
theorem C5_witness :
    exCand ∈ filter_candidates_basic [exCand] exUser 5000 0 ∧
    ¬ rejectedByDistance exUser exCand 5000 := by
  have h3 := (C5_prefilter [exCand] exUser 5000 0).2.2 exCand (Or.inl rfl)
  exact ⟨(C5_prefilter [exCand] exUser 5000 0).2.1 exCand (by simp) (by decide) h3 (by decide), h3⟩

/-- C6. The rank stage returns the first 10 elements of the scored list
under a descending stable sort on the deterministic score: the sorted list
is pairwise descending, is a permutation of the input, preserves the
relative order of any pair already in non-increasing score order (hence of
equal-score pairs), and on the concrete 60/80 input the 80-score candidate
comes out first. -/
theorem C6_rank_stage :
    (∀ s : MatchingState, errTruthy s.error = false →
      (MatchingGraph.node_rank_top_matches s).top_matches =
        some (((s.scored_matches.getD []).mergeSort MatchingGraph.rankLe).take 10) ∧
      ((s.scored_matches.getD []).mergeSort MatchingGraph.rankLe).Pairwise
        (fun a b => MatchingGraph.scoreKey b ≤ MatchingGraph.scoreKey a) ∧
      ((s.scored_matches.getD []).mergeSort MatchingGraph.rankLe).Perm (s.scored_matches.getD []) ∧
      (∀ a b : Scored, MatchingGraph.scoreKey b ≤ MatchingGraph.scoreKey a →
        List.Sublist [a, b] (s.scored_matches.getD []) →
        List.Sublist [a, b] ((s.scored_matches.getD []).mergeSort MatchingGraph.rankLe))) ∧
    (MatchingGraph.node_rank_top_matches exRankState).top_matches = some [exScored80, exScored60] := by
  constructor
  · intro s h
    refine ⟨?_, ?_, ?_, ?_⟩
    · simp [MatchingGraph.node_rank_top_matches, h]
    · exact (List.sorted_mergeSort MatchingGraph.rankLe_trans MatchingGraph.rankLe_total _).imp
        (fun hab => by simpa [MatchingGraph.rankLe] using hab)
    · exact List.mergeSort_perm _ _
    · intro a b hle hsub
      exact List.pair_sublist_mergeSort MatchingGraph.rankLe_trans MatchingGraph.rankLe_total
        (by simpa [MatchingGraph.rankLe] using hle) hsub
  · simp [MatchingGraph.node_rank_top_matches, exRankState, errTruthy, List.mergeSort,
      List.splitInTwo, List.merge, MatchingGraph.rankLe, MatchingGraph.scoreKey,
      exScored60, exScored80]

/-- Witness for C6 on the concrete two-candidate state. -/
theorem C6_witness :
    (MatchingGraph.node_rank_top_matches exRankState).top_matches =
      some (((exRankState.scored_matches.getD []).mergeSort MatchingGraph.rankLe).take 10) :=
  (C6_rank_stage.1 exRankState rfl).1

/-- C7. Whatever the classification oracle would answer, a safety run over
content containing a banned word ends with the recommended action
`reject`. -/
theorem C7_banned_word_reject (content content_type : String)
    (oracle : Option LlmSafetyResult)
    (h : (BANNED_WORDS.any fun w => strContains (pyLower content) w) = true) :
    (SafetyGraph.run_safety oracle
      (SafetyGraph.initSafetyState content content_type)).recommended_action = some "reject" := by
  obtain ⟨w, hw, hcw⟩ := List.any_eq_true.mp h
  have hE : SafetyGraph.explicitFlag ∈
      ((BANNED_WORDS.filter fun word => strContains (pyLower content) word).map
        fun _ => SafetyGraph.explicitFlag) :=
    List.mem_map_of_mem _ (List.mem_filter.mpr ⟨hw, hcw⟩)
  set s2 := SafetyGraph.node_check_explicit_content
    (SafetyGraph.node_detect_spam_patterns (SafetyGraph.initSafetyState content content_type)) with hs2
  have hflags : SafetyGraph.explicitFlag ∈ s2.flags.getD [] := by
    rw [hs2]
    simp only [SafetyGraph.node_detect_spam_patterns, SafetyGraph.node_check_explicit_content,
      SafetyGraph.initSafetyState, Option.getD_some, Option.getD_none]
    simp only [List.mem_append]
    right
    exact hE
  have hra : s2.recommended_action = none := by
    rw [hs2]
    simp [SafetyGraph.node_detect_spam_patterns, SafetyGraph.node_check_explicit_content,
      SafetyGraph.initSafetyState]
  have hne : s2.flags.getD [] ≠ [] := List.ne_nil_of_mem hflags
  have hconf : pyMaxDefault ((s2.flags.getD []).map fun f => f.confidence.getD 0) 0 ≥ 3/4 := by
    have hm : (19/20 : ℚ) ∈ (s2.flags.getD []).map fun f => f.confidence.getD 0 := by
      refine List.mem_map.mpr ⟨SafetyGraph.explicitFlag, hflags, ?_⟩
      simp [SafetyGraph.explicitFlag]
    have := mem_le_pyMaxDefault _ 0 _ hm
    linarith
  show (SafetyGraph.node_finalize_response (SafetyGraph.node_determine_action
    (SafetyGraph.node_classify_uncertain oracle s2))).recommended_action = some "reject"
  rw [SafetyGraph.classify_early oracle s2 hne hconf]
  apply SafetyGraph.finalize_keeps
  apply SafetyGraph.determine_reject
  · simpa using List.mem_map_of_mem (fun f => f.flag) hflags
  · simpa using hra

/-- Witness for C7 on concrete content containing the banned word. -/
theorem C7_witness :
    (SafetyGraph.run_safety none
      (SafetyGraph.initSafetyState "Some slur1 content" "message")).recommended_action =
      some "reject" :=
  C7_banned_word_reject "Some slur1 content" "message" none (by decide)

/-- C8 (amended). The recommendation score of an event or group is the
base 50 plus non-negative bonuses whenever the attendee or member count is
non-negative, so the result is then at least 0; without that restriction
the claim fails because no final floor is applied. -/
theorem C8_recommendation_scores :
    (∀ (e : EventRec) (u : Profile) (now : ℚ),
        0 ≤ e.attendeesCount.getD 0 → 0 ≤ score_event e u now) ∧
    (∀ (g : GroupRec) (u : Profile),
        0 ≤ g.memberCount.getD 0 → 0 ≤ score_group g u) := by
  constructor
  · intro e u now h
    have hmin : (0:ℚ) ≤ min (e.attendeesCount.getD 0 / 10) 15 :=
      le_min (by positivity) (by norm_num)
    simp only [score_event]
    rcases e.category with _ | c <;> rcases e.startTime with _ | t <;>
      simp only [] <;> (try split_ifs) <;> linarith
  · intro g u h
    have hmin : (0:ℚ) ≤ min (g.memberCount.getD 0 / 50) 15 :=
      le_min (by positivity) (by norm_num)
    have hmin2 : (0:ℚ) ≤
        min ((sharedInterestCount (u.interests.getD []) (g.tags.getD []) : ℚ) * 5) 20 :=
      le_min (by positivity) (by norm_num)
    simp only [score_group]
    linarith

/-- Witness for C8 at an empty event and group. -/
theorem C8_witness : 0 ≤ score_event {} {} 0 ∧ 0 ≤ score_group {} {} :=
  ⟨C8_recommendation_scores.1 {} {} 0 (by decide), C8_recommendation_scores.2 {} {} (by decide)⟩

/-- Counterexample for C8 as stated: an event with attendee count -1000
scores 50 + min(-100, 15) = -50, below 0, because no final clamp exists. -/
theorem C8_counterexample : score_event { attendeesCount := some (-1000) } {} 0 < 0 := by
  norm_num [score_event, min_def]

/-- C9 (amended). For every point and every non-negative radius the
distance multiplier at identical coordinates is exactly 1; the restriction
to non-negative radii is necessary. -/
theorem C9_identical_points (lat lng r : ℝ) (h : 0 ≤ r) :
    calculate_distance_score lat lng lat lng r = 1 := by
  simp [calculate_distance_score, haversine_self, h]

/-- Witness for C9 at the origin with radius 5000. -/
theorem C9_witness : calculate_distance_score 0 0 0 0 5000 = 1 :=
  C9_identical_points 0 0 5000 (by norm_num)

/-- Counterexample for C9 as stated over all radii: with radius -5000 the
multiplier at identical points is 2, not 1. -/
theorem C9_counterexample :
    calculate_distance_score 0 0 0 0 (-5000) = 2 ∧ (2 : ℝ) ≠ 1 := by
  constructor
  · rw [calculate_distance_score]
    rw [haversine_self]
    norm_num
  · norm_num

/-- C10. The compatibility score is never below the base 40: every bonus
is a non-negative addition and the cap is above the base. -/
theorem C10_score_lower_bound (u c : Profile) : 40 ≤ calculate_base_compatibility_score u c := by
  simp only [calculate_base_compatibility_score]
  split <;> split <;> split <;> omega

end CampusConnect
